import Mathlib

/-!
Shallow embedding of the VRPTW pipeline owned by this repository
(`vrptw_solver.py` and the solve path of `vrptw_app.py`):

* `haversine_distance`, `compute_distance_matrix`, `miles_to_minutes`,
  `duration_matrix` — the geospatial matrix builder;
* `build_model` — the PyVRP model adapter (depot, clients, vehicle type,
  complete edge set) as assembled in `solve_vrptw`;
* `mkRouteData`, `aggregate_solution` — the solution aggregator that turns
  the raw solver routes into the serializable solution record;
* `df_display`, `validation_passed`, `on_solve_click` — the app-side
  truncation/validation/time-window gate around the solver call.

Coordinates and distances are embedded as real numbers; Python's `int(...)`
truncation is `pyInt`.  Matrices are total functions on ℕ indices built by
folding the source's loops; entries never written stay at the `np.zeros`
initial value 0.
-/

/-- One CSV row: `name, address, latitude, longitude`.  Row 0 is the depot. -/
structure Location where
  name : String
  address : String
  latitude : ℝ
  longitude : ℝ

/-- `df.iloc[i]` (assumed in range by the Python code; defaulted outside). -/
def nth (df : List Location) (i : ℕ) : Location :=
  df.getD i ⟨"", "", 0, 0⟩

/-- Degrees to radians, `math.radians`. -/
noncomputable def radians (x : ℝ) : ℝ := x * Real.pi / 180

/-- `haversine_distance(lat1, lon1, lat2, lon2)`: great-circle distance in
miles between two points given in decimal degrees (Earth radius 3956). -/
noncomputable def haversine_distance (lat1 lon1 lat2 lon2 : ℝ) : ℝ :=
  let lon1r := radians lon1
  let lat1r := radians lat1
  let lon2r := radians lon2
  let lat2r := radians lat2
  let dlon := lon2r - lon1r
  let dlat := lat2r - lat1r
  let a := Real.sin (dlat / 2) ^ 2 +
    Real.cos lat1r * Real.cos lat2r * Real.sin (dlon / 2) ^ 2
  let c := 2 * Real.arcsin (Real.sqrt a)
  c * 3956

/-- Haversine distance between rows `i` and `j` of the location table, as
computed in the body of the double loop of `compute_distance_matrix`. -/
noncomputable def hav_idx (df : List Location) (i j : ℕ) : ℝ :=
  haversine_distance (nth df i).latitude (nth df i).longitude
    (nth df j).latitude (nth df j).longitude

/-- Distance matrices are total functions on ℕ indices; unwritten entries
keep the `np.zeros((n, n))` value 0. -/
abbrev Mat : Type := ℕ → ℕ → ℝ

/-- A single assignment `matrix[i, j] = v`. -/
def upd (M : Mat) (i j : ℕ) (v : ℝ) : Mat :=
  fun a b => if a = i ∧ b = j then v else M a b

/-- Index pairs visited by `for i in range(n): for j in range(i+1, n)`,
in loop order. -/
def pairList (n : ℕ) : List (ℕ × ℕ) :=
  (List.range n).flatMap fun i =>
    ((List.range n).filter fun j => i < j).map fun j => (i, j)

/-- One iteration of the loop body: compute the pair's haversine distance
once and assign both `[i, j]` and `[j, i]`. -/
noncomputable def matStep (df : List Location) (M : Mat) (p : ℕ × ℕ) : Mat :=
  upd (upd M p.1 p.2 (hav_idx df p.1 p.2)) p.2 p.1 (hav_idx df p.1 p.2)

/-- `compute_distance_matrix(locations_df)`: start from `np.zeros((n, n))`
and fill each unordered pair symmetrically. -/
noncomputable def compute_distance_matrix (df : List Location) : Mat :=
  (pairList df.length).foldl (matStep df) fun _ _ => 0

/-- The shape `(n, n)` of `np.zeros((n, n))` with `n = len(locations_df)`. -/
def matrixShape (df : List Location) : ℕ × ℕ :=
  (df.length, df.length)

/-- Python's `int(x)` on a float: truncation toward zero. -/
noncomputable def pyInt (x : ℝ) : ℤ :=
  if 0 ≤ x then ⌊x⌋ else ⌈x⌉

/-- `miles_to_minutes(distance_miles, avg_speed_mph)`:
`int(distance_miles / avg_speed_mph * 60)`. -/
noncomputable def miles_to_minutes (distance_miles avg_speed_mph : ℝ) : ℤ :=
  pyInt (distance_miles / avg_speed_mph * 60)

/-- `duration_matrix`: `np.zeros_like` then
`duration_matrix[i, j] = miles_to_minutes(distance_matrix[i, j], avg_speed_mph)`
for every `i, j` in `range(n)`. -/
noncomputable def duration_matrix (M : Mat) (n : ℕ) (avg_speed_mph : ℝ) :
    ℕ → ℕ → ℤ :=
  fun i j => if i < n ∧ j < n then miles_to_minutes (M i j) avg_speed_mph else 0

/-! ### Routing model adapter (`solve_vrptw`, lines 200-247) -/

/-- The depot as added by `m.add_depot(...)`. -/
structure Depot where
  x : ℤ
  y : ℤ
  tw_early : ℤ
  tw_late : ℤ

/-- A client as added by `m.add_client(...)`. -/
structure Client where
  x : ℤ
  y : ℤ
  delivery : ℤ
  service_duration : ℤ
  tw_early : ℤ
  tw_late : ℤ
  name : String

/-- The vehicle type as added by `m.add_vehicle_type(...)`.  `max_duration`
models PyVRP's optional per-route duration bound; `none` means the argument
was not passed, i.e. the model imposes no route-duration limit. -/
structure VehicleType where
  num_available : ℕ
  capacity : ℤ
  name : String
  max_duration : Option ℤ

/-- One directed edge as added by `m.add_edge(frm, to, distance, duration)`;
location index 0 is the depot and index `k ≥ 1` is client `k`. -/
structure Edge where
  frm : ℕ
  dst : ℕ
  distance : ℤ
  duration : ℤ

/-- The PyVRP model assembled by `solve_vrptw` before calling `m.solve`. -/
structure PyVRPModel where
  depot : Depot
  clients : List Client
  vehicle_type : VehicleType
  edges : List Edge

/-- The scalar parameters of `solve_vrptw` that shape the model. -/
structure SolveParams where
  num_vehicles : ℕ
  vehicle_capacity : ℤ
  service_time : ℤ
  time_window_start : ℤ
  time_window_end : ℤ
  max_route_duration : Option ℤ

/-- Lines 178-180: `if max_route_duration is None: max_route_duration =
time_window_end - time_window_start`. -/
def effective_max_route_duration (p : SolveParams) : ℤ :=
  match p.max_route_duration with
  | none => p.time_window_end - p.time_window_start
  | some d => d

/-- `int(coord * 100000)`, the integer coordinate encoding. -/
noncomputable def scaledCoord (c : ℝ) : ℤ :=
  pyInt (c * 100000)

/-- `int(distance_matrix[i][j] * 100)`, distance in hundredths of a mile. -/
noncomputable def scaledDist (d : ℝ) : ℤ :=
  pyInt (d * 100)

/-- Lines 234-247: the complete edge set — depot to every client in both
directions, then every unordered client pair in both directions. -/
noncomputable def build_edges (M : Mat) (U : ℕ → ℕ → ℤ) (n : ℕ) : List Edge :=
  ((List.range n).filter fun j => 0 < j).flatMap
    (fun j => ([⟨0, j, scaledDist (M 0 j), U 0 j⟩,
                ⟨j, 0, scaledDist (M 0 j), U 0 j⟩] : List Edge)) ++
  ((pairList n).filter fun p => 0 < p.1).flatMap
    (fun p => ([⟨p.1, p.2, scaledDist (M p.1 p.2), U p.1 p.2⟩,
                ⟨p.2, p.1, scaledDist (M p.1 p.2), U p.1 p.2⟩] : List Edge))

/-- Lines 200-247: the model handed to the external solver.  Note that
`add_vehicle_type` is called with `num_available`, `capacity` and `name`
only — no `max_duration` argument — so `max_duration := none`. -/
noncomputable def build_model (df : List Location) (M : Mat)
    (U : ℕ → ℕ → ℤ) (p : SolveParams) : PyVRPModel :=
  { depot :=
      { x := scaledCoord (nth df 0).longitude
      , y := scaledCoord (nth df 0).latitude
      , tw_early := p.time_window_start
      , tw_late := p.time_window_end }
  , clients := ((List.range df.length).filter fun i => 0 < i).map fun i =>
      { x := scaledCoord (nth df i).longitude
      , y := scaledCoord (nth df i).latitude
      , delivery := 1
      , service_duration := p.service_time
      , tw_early := p.time_window_start
      , tw_late := p.time_window_end
      , name := (nth df i).name }
  , vehicle_type :=
      { num_available := p.num_vehicles
      , capacity := p.vehicle_capacity
      , name := "Vehicle"
      , max_duration := none }
  , edges := build_edges M U df.length }

/-! ### Solution aggregator (`solve_vrptw`, lines 262-319) -/

/-- The raw outcome of `m.solve(...)`: the feasibility verdict, the
objective cost, and each route's `visits()` list. -/
structure SolverResult where
  is_feasible : Bool
  cost : ℤ
  routes : List (List ℕ)

/-- One entry of `solution_data['routes']` (lines 298-313). -/
structure RouteData where
  visits : List ℕ
  locations : List String
  distance : ℝ
  duration : ℤ

/-- The `solution_data` record (lines 262-270). -/
structure SolutionData where
  feasible : Bool
  cost : Option ℤ
  routes : List RouteData
  num_routes : ℕ
  total_distance : ℝ
  total_duration : ℤ
  locations : List Location

/-- Lines 305-313: walk the visits from the depot (`current = 0`), adding
the leg distance and the leg duration plus `service_time` at each visit;
the return value is `(current, distance, duration)` before the final
depot leg is added. -/
noncomputable def routeAccum (M : Mat) (U : ℕ → ℕ → ℤ) (service_time : ℤ)
    (visits : List ℕ) : ℕ × ℝ × ℤ :=
  visits.foldl
    (fun acc visit =>
      (visit, acc.2.1 + M acc.1 visit, acc.2.2 + (U acc.1 visit + service_time)))
    (0, (0 : ℝ), (0 : ℤ))

/-- Lines 298-313: the `route_data` record for one non-empty route,
including the final leg back to the depot. -/
noncomputable def mkRouteData (df : List Location) (M : Mat)
    (U : ℕ → ℕ → ℤ) (service_time : ℤ) (visits : List ℕ) : RouteData :=
  let acc := routeAccum M U service_time visits
  { visits := visits
  , locations := [(nth df 0).name] ++ (visits.map fun i => (nth df i).name)
      ++ [(nth df 0).name]
  , distance := acc.2.1 + M acc.1 0
  , duration := acc.2.2 + U acc.1 0 }

/-- Lines 293-317: one iteration of `for route in routes`, skipping routes
with zero visits and otherwise appending the route record and adding its
metrics to the totals. -/
noncomputable def aggStep (df : List Location) (M : Mat) (U : ℕ → ℕ → ℤ)
    (service_time : ℤ) (sol : SolutionData) (visits : List ℕ) : SolutionData :=
  if visits.length = 0 then sol
  else
    let rd := mkRouteData df M U service_time visits
    { sol with
      routes := sol.routes ++ [rd]
      total_distance := sol.total_distance + rd.distance
      total_duration := sol.total_duration + rd.duration }

/-- Lines 262-319: build `solution_data`, return it unchanged (with empty
routes and zero metrics) when the solver verdict is infeasible, otherwise
process every route and finally set `num_routes`. -/
noncomputable def aggregate_solution (df : List Location) (M : Mat)
    (U : ℕ → ℕ → ℤ) (service_time : ℤ) (result : SolverResult) : SolutionData :=
  let base : SolutionData :=
    { feasible := result.is_feasible
    , cost := if result.is_feasible then some result.cost else none
    , routes := []
    , num_routes := 0
    , total_distance := 0
    , total_duration := 0
    , locations := df }
  if result.is_feasible = false then base
  else
    let final := result.routes.foldl (aggStep df M U service_time) base
    { final with num_routes := final.routes.length }

/-! ### JSON serialization (`json.dump(solution_data, f, indent=2)`),
modelled as a deterministic printer; float formatting is a parameter
standing for Python's fixed float `repr`. -/

/-- JSON string literal. -/
def jstr (s : String) : String :=
  "\"" ++ s ++ "\""

/-- JSON array from already-serialized elements. -/
def jarr (xs : List String) : String :=
  "[" ++ String.intercalate ", " xs ++ "]"

/-- Serialize an optional cost, `null` when absent. -/
def jcost (c : Option ℤ) : String :=
  match c with
  | none => "null"
  | some v => toString v

/-- Serialize one `route_data` record. -/
def routeJson (fmt : ℝ → String) (r : RouteData) : String :=
  "\x7b" ++ jstr "visits" ++ ": " ++ jarr (r.visits.map toString) ++ ", " ++
    jstr "locations" ++ ": " ++ jarr (r.locations.map jstr) ++ ", " ++
    jstr "distance" ++ ": " ++ fmt r.distance ++ ", " ++
    jstr "duration" ++ ": " ++ toString r.duration ++ "\x7d"

/-- Serialize one location record. -/
def locationJson (fmt : ℝ → String) (l : Location) : String :=
  "\x7b" ++ jstr "name" ++ ": " ++ jstr l.name ++ ", " ++
    jstr "address" ++ ": " ++ jstr l.address ++ ", " ++
    jstr "latitude" ++ ": " ++ fmt l.latitude ++ ", " ++
    jstr "longitude" ++ ": " ++ fmt l.longitude ++ "\x7d"

/-- Serialize the whole `solution_data` record. -/
def solutionJson (fmt : ℝ → String) (s : SolutionData) : String :=
  "\x7b" ++ jstr "feasible" ++ ": " ++ (if s.feasible then "true" else "false")
    ++ ", " ++ jstr "cost" ++ ": " ++ jcost s.cost ++ ", " ++
    jstr "routes" ++ ": " ++ jarr (s.routes.map (routeJson fmt)) ++ ", " ++
    jstr "num_routes" ++ ": " ++ toString s.num_routes ++ ", " ++
    jstr "total_distance" ++ ": " ++ fmt s.total_distance ++ ", " ++
    jstr "total_duration" ++ ": " ++ toString s.total_duration ++ ", " ++
    jstr "locations" ++ ": " ++ jarr (s.locations.map (locationJson fmt)) ++
    "\x7d"

/-! ### App-side truncation, validation and time-window gate
(`vrptw_app.py`). -/

/-- Lines 294-299 of the app: apply the location cap to the working table
before validation when `0 < num_locations < len(df)`. -/
def df_display (num_locations : ℕ) (df : List Location) : List Location :=
  if 0 < num_locations ∧ num_locations < df.length then df.take num_locations
  else df

/-- Lines 159-161 of the solver: `df = df.head(num_locations)` when the cap
is given. -/
def truncate_df (num_locations : Option ℕ) (df : List Location) : List Location :=
  match num_locations with
  | none => df
  | some k => df.take k

/-- Lines 313-338 of the app: the validation checks expressible over the
embedded rows — at least 2 rows, and coordinates within range.  (The
numeric-coercion and missing-value checks concern CSV cell contents that the
embedding already represents as total numeric/string fields.) -/
def validation_passed (rows : List Location) : Prop :=
  2 ≤ rows.length ∧
    (∀ l ∈ rows, -90 ≤ l.latitude ∧ l.latitude ≤ 90) ∧
    (∀ l ∈ rows, -180 ≤ l.longitude ∧ l.longitude ≤ 180)

/-- The app validates `df_display`, i.e. the capped table. -/
def app_validation (num_locations : ℕ) (df : List Location) : Prop :=
  validation_passed (df_display num_locations df)

/-- Lines 519-522 of the app: on a solve click, reject when
`time_window_end <= time_window_start`, otherwise run the solver. -/
def on_solve_click {α : Type} (time_window_start time_window_end : ℤ)
    (runSolver : Unit → α) : Except String α :=
  if time_window_end ≤ time_window_start then
    Except.error "End time must be after start time!"
  else Except.ok (runSolver ())

/-- The depot-to-last leg list of a route: depot → first visit → … → last
visit → depot, as consecutive pairs. -/
def routeLegs (visits : List ℕ) : List (ℕ × ℕ) :=
  List.zip (0 :: visits) (visits ++ [0])

/-! ### Concrete example data for closed instances -/

/-- A two-row location table: depot plus one customer. -/
noncomputable def exDf : List Location :=
  [⟨"Depot", "1 Main St", 43, -77⟩, ⟨"Hotel A", "2 Oak St", 43.2, -77.5⟩]

/-- A three-row location table: depot plus two customers. -/
noncomputable def exDf3 : List Location :=
  [⟨"Depot", "1 Main St", 43, -77⟩, ⟨"Hotel A", "2 Oak St", 43.2, -77.5⟩,
   ⟨"Hotel B", "3 Elm St", 43.1, -77.3⟩]

/-- The parameters of the repository's own `__main__` example: explicit
`max_route_duration=420` inside a 540-1020 window (span 480). -/
def exParams : SolveParams :=
  { num_vehicles := 10
  , vehicle_capacity := 5
  , service_time := 60
  , time_window_start := 540
  , time_window_end := 1020
  , max_route_duration := some 420 }

/-- The default-parameter call: `max_route_duration=None`. -/
def exParamsDefault : SolveParams :=
  { exParams with max_route_duration := none }

/-- A raw solver verdict that is infeasible (with junk cost and routes, to
show they are ignored). -/
def exInfeasible : SolverResult :=
  { is_feasible := false, cost := 5, routes := [[1]] }

/-- A feasible raw solver output with one unused vehicle (empty route) and
one route visiting customer 1. -/
def exFeasible : SolverResult :=
  { is_feasible := true, cost := 12, routes := [[], [1]] }

/-- A concrete distance matrix stub for closed instances. -/
noncomputable def exMat : Mat := fun _ _ => (3 : ℝ)

/-- A concrete duration matrix stub for closed instances. -/
def exDur : ℕ → ℕ → ℤ := fun _ _ => 7

/-! ### Theorems -/

theorem upd_self (M : Mat) (i j : ℕ) (v : ℝ) : upd M i j v i j = v := by
  simp [upd]

theorem upd_other (M : Mat) (i j a b : ℕ) (v : ℝ)
    (h : ¬(a = i ∧ b = j)) : upd M i j v a b = M a b := by
  simp only [upd, if_neg h]

theorem mem_pairList (n : ℕ) (p : ℕ × ℕ) :
    p ∈ pairList n ↔ p.1 < p.2 ∧ p.2 < n := by
  cases p with
  | mk i j =>
    simp only [pairList, List.mem_flatMap, List.mem_map, List.mem_filter,
      List.mem_range, decide_eq_true_eq]
    constructor
    · rintro ⟨a, ha, b, ⟨hb, hab⟩, hpq⟩
      cases hpq
      exact ⟨hab, hb⟩
    · rintro ⟨hij, hj⟩
      exact ⟨i, lt_trans hij hj, j, ⟨hj, hij⟩, rfl⟩

theorem pairList_increasing (n : ℕ) :
    ∀ p ∈ pairList n, p.1 < p.2 := by
  intro p hp
  exact ((mem_pairList n p).mp hp).1

theorem pairList_nodup (n : ℕ) : (pairList n).Nodup := by
  rw [pairList, List.nodup_flatMap]
  constructor
  · intro i _
    apply List.Nodup.map
    · intro a b hab
      simpa using hab
    · exact (List.nodup_range n).filter _
  · apply List.Pairwise.imp ?_ (List.nodup_range n)
    intro a b hab p hpa hpb
    simp only [Function.onFun, List.mem_map, List.mem_filter,
      List.mem_range] at hpa hpb
    rcases hpa with ⟨x, _, hx⟩
    rcases hpb with ⟨y, _, hy⟩
    exact hab (congrArg Prod.fst (hx.trans hy.symm))

theorem foldl_matStep_untouched (df : List Location) :
    ∀ (L : List (ℕ × ℕ)) (M₀ : Mat) (i j : ℕ),
      (∀ p ∈ L, ¬(p.1 = i ∧ p.2 = j) ∧ ¬(p.2 = i ∧ p.1 = j)) →
      (L.foldl (matStep df) M₀) i j = M₀ i j := by
  intro L
  induction L with
  | nil => intro M₀ i j _; rfl
  | cons p L ih =>
    intro M₀ i j h
    have hp := h p (List.mem_cons_self p L)
    have htail : ∀ q ∈ L, ¬(q.1 = i ∧ q.2 = j) ∧ ¬(q.2 = i ∧ q.1 = j) :=
      fun q hq => h q (List.mem_cons_of_mem p hq)
    rw [List.foldl_cons, ih (matStep df M₀ p) i j htail]
    show upd (upd M₀ p.1 p.2 (hav_idx df p.1 p.2)) p.2 p.1
      (hav_idx df p.1 p.2) i j = M₀ i j
    rw [upd_other (upd M₀ p.1 p.2 (hav_idx df p.1 p.2)) p.2 p.1 i j
        (hav_idx df p.1 p.2) (fun hc => hp.2 ⟨hc.1.symm, hc.2.symm⟩),
      upd_other M₀ p.1 p.2 i j (hav_idx df p.1 p.2)
        (fun hc => hp.1 ⟨hc.1.symm, hc.2.symm⟩)]

theorem foldl_matStep_written (df : List Location) :
    ∀ (L : List (ℕ × ℕ)) (M₀ : Mat) (i j : ℕ),
      (i, j) ∈ L → L.Nodup → (∀ p ∈ L, p.1 < p.2) →
      (L.foldl (matStep df) M₀) i j = hav_idx df i j ∧
      (L.foldl (matStep df) M₀) j i = hav_idx df i j := by
  intro L
  induction L with
  | nil => intro M₀ i j hmem; exact absurd hmem (List.not_mem_nil _)
  | cons p L ih =>
    intro M₀ i j hmem hnd hinc
    have hij : i < j := by
      have := hinc (i, j) hmem
      exact this
    have hnd' := (List.nodup_cons.mp hnd).2
    have hpnot := (List.nodup_cons.mp hnd).1
    have hinc' : ∀ q ∈ L, q.1 < q.2 :=
      fun q hq => hinc q (List.mem_cons_of_mem p hq)
    rw [List.foldl_cons]
    rcases List.mem_cons.mp hmem with heq | hmemL
    · -- the head writes (i, j); the tail never touches (i, j) or (j, i)
      have hne : i ≠ j := Nat.ne_of_lt hij
      have huntouched₁ : ∀ q ∈ L, ¬(q.1 = i ∧ q.2 = j) ∧ ¬(q.2 = i ∧ q.1 = j) := by
        intro q hq
        constructor
        · intro hc
          exact hpnot (heq ▸ (Prod.ext hc.1 hc.2 : q = (i, j)) ▸ hq)
        · intro hc
          have := hinc' q hq
          omega
      have huntouched₂ : ∀ q ∈ L, ¬(q.1 = j ∧ q.2 = i) ∧ ¬(q.2 = j ∧ q.1 = i) := by
        intro q hq
        constructor
        · intro hc
          have := hinc' q hq
          omega
        · intro hc
          exact hpnot (heq ▸ (Prod.ext hc.2 hc.1 : q = (i, j)) ▸ hq)
      rw [foldl_matStep_untouched df L _ i j huntouched₁,
        foldl_matStep_untouched df L _ j i huntouched₂, ← heq]
      constructor
      · show upd (upd M₀ i j (hav_idx df i j)) j i (hav_idx df i j) i j =
          hav_idx df i j
        rw [upd_other (upd M₀ i j (hav_idx df i j)) j i i j (hav_idx df i j)
          (fun hc => hne hc.1), upd_self]
      · show upd (upd M₀ i j (hav_idx df i j)) j i (hav_idx df i j) j i =
          hav_idx df i j
        rw [upd_self]
    · exact ih (matStep df M₀ p) i j hmemL hnd' hinc'

theorem compute_distance_matrix_pair (df : List Location) (i j : ℕ)
    (hij : i < j) (hj : j < df.length) :
    compute_distance_matrix df i j = hav_idx df i j ∧
    compute_distance_matrix df j i = hav_idx df i j := by
  unfold compute_distance_matrix
  exact foldl_matStep_written df (pairList df.length) _ i j
    ((mem_pairList df.length (i, j)).mpr ⟨hij, hj⟩)
    (pairList_nodup df.length) (pairList_increasing df.length)

theorem compute_distance_matrix_diag (df : List Location) (i : ℕ) :
    compute_distance_matrix df i i = 0 := by
  unfold compute_distance_matrix
  rw [foldl_matStep_untouched df (pairList df.length) _ i i ?_]
  intro p hp
  have := pairList_increasing df.length p hp
  omega

theorem compute_distance_matrix_outside (df : List Location) (i j : ℕ)
    (h : df.length ≤ i ∨ df.length ≤ j) :
    compute_distance_matrix df i j = 0 := by
  unfold compute_distance_matrix
  rw [foldl_matStep_untouched df (pairList df.length) _ i j ?_]
  intro p hp
  have h1 := (mem_pairList df.length p).mp hp
  omega

theorem haversine_distance_symm (lat1 lon1 lat2 lon2 : ℝ) :
    haversine_distance lat1 lon1 lat2 lon2 =
    haversine_distance lat2 lon2 lat1 lon1 := by
  unfold haversine_distance
  have hsin : ∀ x y : ℝ, Real.sin ((x - y) / 2) ^ 2 = Real.sin ((y - x) / 2) ^ 2 := by
    intro x y
    rw [show (x - y) / 2 = -((y - x) / 2) by ring, Real.sin_neg, neg_sq]
  simp only
  rw [hsin (radians lat2) (radians lat1), hsin (radians lon2) (radians lon1),
    mul_comm (Real.cos (radians lat1)) (Real.cos (radians lat2))]

theorem hav_idx_symm (df : List Location) (i j : ℕ) :
    hav_idx df i j = hav_idx df j i := by
  unfold hav_idx
  exact haversine_distance_symm _ _ _ _

theorem haversine_distance_nonneg (lat1 lon1 lat2 lon2 : ℝ) :
    0 ≤ haversine_distance lat1 lon1 lat2 lon2 := by
  unfold haversine_distance
  have h1 : (0 : ℝ) ≤ Real.arcsin (Real.sqrt (Real.sin ((radians lat2 - radians lat1) / 2) ^ 2 +
      Real.cos (radians lat1) * Real.cos (radians lat2) *
        Real.sin ((radians lon2 - radians lon1) / 2) ^ 2)) :=
    Real.arcsin_nonneg.mpr (Real.sqrt_nonneg _)
  simp only
  nlinarith [h1]

theorem compute_distance_matrix_nonneg (df : List Location) (i j : ℕ) :
    0 ≤ compute_distance_matrix df i j := by
  rcases Nat.lt_trichotomy i j with h | h | h
  · by_cases hj : j < df.length
    · rw [(compute_distance_matrix_pair df i j h hj).1]
      exact haversine_distance_nonneg _ _ _ _
    · rw [compute_distance_matrix_outside df i j (Or.inr (Nat.le_of_not_lt hj))]
  · rw [h, compute_distance_matrix_diag]
  · by_cases hi : i < df.length
    · rw [(compute_distance_matrix_pair df j i h hi).2]
      exact haversine_distance_nonneg _ _ _ _
    · rw [compute_distance_matrix_outside df i j (Or.inl (Nat.le_of_not_lt hi))]

theorem routeAccum_general (M : Mat) (U : ℕ → ℕ → ℤ) (st : ℤ) :
    ∀ (visits : List ℕ) (current : ℕ) (d0 : ℝ) (t0 : ℤ),
      (visits.foldl
        (fun acc visit =>
          (visit, acc.2.1 + M acc.1 visit, acc.2.2 + (U acc.1 visit + st)))
        (current, d0, t0)).2.1 +
        M (visits.foldl
          (fun acc visit =>
            (visit, acc.2.1 + M acc.1 visit, acc.2.2 + (U acc.1 visit + st)))
          (current, d0, t0)).1 0 =
        d0 + ((List.zip (current :: visits) (visits ++ [0])).map
          fun q => M q.1 q.2).sum ∧
      (visits.foldl
        (fun acc visit =>
          (visit, acc.2.1 + M acc.1 visit, acc.2.2 + (U acc.1 visit + st)))
        (current, d0, t0)).2.2 +
        U (visits.foldl
          (fun acc visit =>
            (visit, acc.2.1 + M acc.1 visit, acc.2.2 + (U acc.1 visit + st)))
          (current, d0, t0)).1 0 =
        t0 + ((List.zip (current :: visits) (visits ++ [0])).map
          fun q => U q.1 q.2).sum + st * visits.length := by
  intro visits
  induction visits with
  | nil =>
    intro current d0 t0
    simp
  | cons v rest ih =>
    intro current d0 t0
    have h := ih v (d0 + M current v) (t0 + (U current v + st))
    simp only [List.foldl_cons]
    constructor
    · rw [h.1]
      simp only [List.cons_append, List.zip_cons_cons, List.map_cons,
        List.sum_cons]
      ring
    · rw [h.2]
      simp only [List.cons_append, List.zip_cons_cons, List.map_cons,
        List.sum_cons, List.length_cons]
      push_cast
      ring

theorem mkRouteData_distance (df : List Location) (M : Mat)
    (U : ℕ → ℕ → ℤ) (st : ℤ) (visits : List ℕ) :
    (mkRouteData df M U st visits).distance =
      ((routeLegs visits).map fun q => M q.1 q.2).sum := by
  have h := (routeAccum_general M U st visits 0 0 0).1
  unfold mkRouteData routeAccum routeLegs
  simpa using h

theorem mkRouteData_duration (df : List Location) (M : Mat)
    (U : ℕ → ℕ → ℤ) (st : ℤ) (visits : List ℕ) :
    (mkRouteData df M U st visits).duration =
      ((routeLegs visits).map fun q => U q.1 q.2).sum + st * visits.length := by
  have h := (routeAccum_general M U st visits 0 0 0).2
  unfold mkRouteData routeAccum routeLegs
  simpa using h

theorem mkRouteData_visits (df : List Location) (M : Mat)
    (U : ℕ → ℕ → ℤ) (st : ℤ) (visits : List ℕ) :
    (mkRouteData df M U st visits).visits = visits := rfl

theorem mkRouteData_locations (df : List Location) (M : Mat)
    (U : ℕ → ℕ → ℤ) (st : ℤ) (visits : List ℕ) :
    (mkRouteData df M U st visits).locations =
      [(nth df 0).name] ++ (visits.map fun i => (nth df i).name) ++
        [(nth df 0).name] := rfl

theorem foldl_aggStep_spec (df : List Location) (M : Mat) (U : ℕ → ℕ → ℤ)
    (st : ℤ) :
    ∀ (l : List (List ℕ)) (s : SolutionData),
      (l.foldl (aggStep df M U st) s).routes =
        s.routes ++ ((l.filter fun v => v.length != 0).map
          (mkRouteData df M U st)) ∧
      (l.foldl (aggStep df M U st) s).total_distance =
        s.total_distance + (((l.filter fun v => v.length != 0).map
          fun v => (mkRouteData df M U st v).distance).sum) ∧
      (l.foldl (aggStep df M U st) s).total_duration =
        s.total_duration + (((l.filter fun v => v.length != 0).map
          fun v => (mkRouteData df M U st v).duration).sum) ∧
      (l.foldl (aggStep df M U st) s).feasible = s.feasible ∧
      (l.foldl (aggStep df M U st) s).cost = s.cost ∧
      (l.foldl (aggStep df M U st) s).num_routes = s.num_routes ∧
      (l.foldl (aggStep df M U st) s).locations = s.locations := by
  intro l
  induction l with
  | nil =>
    intro s
    simp
  | cons v l ih =>
    intro s
    rw [List.foldl_cons]
    by_cases hv : v.length = 0
    · have hstep : aggStep df M U st s v = s := by
        unfold aggStep
        rw [if_pos hv]
      have hfilter : (v :: l).filter (fun v => v.length != 0) =
          l.filter fun v => v.length != 0 := by
        rw [List.filter_cons]
        simp [hv]
      rw [hstep, hfilter]
      exact ih s
    · have hstep : aggStep df M U st s v =
        { s with
          routes := s.routes ++ [mkRouteData df M U st v]
          total_distance := s.total_distance + (mkRouteData df M U st v).distance
          total_duration := s.total_duration + (mkRouteData df M U st v).duration } := by
        unfold aggStep
        rw [if_neg hv]
      have hfilter : (v :: l).filter (fun v => v.length != 0) =
          v :: l.filter fun v => v.length != 0 := by
        rw [List.filter_cons]
        simp [hv]
      rw [hstep, hfilter]
      have h := ih { s with
        routes := s.routes ++ [mkRouteData df M U st v]
        total_distance := s.total_distance + (mkRouteData df M U st v).distance
        total_duration := s.total_duration + (mkRouteData df M U st v).duration }
      refine ⟨?_, ?_, ?_, h.2.2.2⟩
      · rw [h.1]
        simp
      · rw [h.2.1]
        simp only [List.map_cons, List.sum_cons]
        ring
      · rw [h.2.2.1]
        simp only [List.map_cons, List.sum_cons]
        ring

/-- C4: For every ordered sequence of locations the distance matrix built by
`compute_distance_matrix` has shape n × n (`np.zeros((n, n))`), is symmetric
on its index range, has a zero diagonal, its off-diagonal entries equal the
haversine great-circle distance (Earth radius 3956 miles) of the unordered
pair of rows, and no entry outside the n × n range is ever written. -/
theorem distance_matrix_symm_diag_haversine (df : List Location) :
    matrixShape df = (df.length, df.length) ∧
    (∀ i j, i < df.length → j < df.length →
      compute_distance_matrix df i j = compute_distance_matrix df j i) ∧
    (∀ i, i < df.length → compute_distance_matrix df i i = 0) ∧
    (∀ i j, i < df.length → j < df.length → i ≠ j →
      compute_distance_matrix df i j = hav_idx df i j) ∧
    (∀ i j, df.length ≤ i ∨ df.length ≤ j →
      compute_distance_matrix df i j = 0) := by
  refine ⟨rfl, ?_, fun i _ => compute_distance_matrix_diag df i, ?_,
    fun i j h => compute_distance_matrix_outside df i j h⟩
  · intro i j hi hj
    rcases Nat.lt_trichotomy i j with h | h | h
    · rw [(compute_distance_matrix_pair df i j h hj).1,
        (compute_distance_matrix_pair df i j h hj).2]
    · rw [h]
    · rw [(compute_distance_matrix_pair df j i h hi).1,
        (compute_distance_matrix_pair df j i h hi).2]
  · intro i j hi hj hne
    rcases Nat.lt_trichotomy i j with h | h | h
    · exact (compute_distance_matrix_pair df i j h hj).1
    · exact absurd h hne
    · rw [(compute_distance_matrix_pair df j i h hi).2, hav_idx_symm]

/-- Closed instance of C4 at a concrete two-row table. -/
theorem distance_matrix_symm_diag_haversine_witness :
    compute_distance_matrix exDf 0 1 = compute_distance_matrix exDf 1 0 ∧
    compute_distance_matrix exDf 0 0 = 0 ∧
    compute_distance_matrix exDf 0 1 = hav_idx exDf 0 1 ∧
    compute_distance_matrix exDf 5 7 = 0 :=
  ⟨(distance_matrix_symm_diag_haversine exDf).2.1 0 1 (by decide) (by decide),
   (distance_matrix_symm_diag_haversine exDf).2.2.1 0 (by decide),
   (distance_matrix_symm_diag_haversine exDf).2.2.2.1 0 1 (by decide)
     (by decide) (by decide),
   (distance_matrix_symm_diag_haversine exDf).2.2.2.2 5 7
     (Or.inl (by decide))⟩

/-- C3: for distance d ≥ 0 and speed s > 0 the derived travel time is
`⌊d / s * 60⌋` minutes (integer truncation), and hence every in-range
duration-matrix entry is the floor of the distance entry over the speed
times 60. -/
theorem duration_is_floor :
    (∀ d s : ℝ, 0 ≤ d → 0 < s → miles_to_minutes d s = ⌊d / s * 60⌋) ∧
    (∀ (df : List Location) (s : ℝ) (i j : ℕ),
      i < df.length → j < df.length → 0 < s →
      duration_matrix (compute_distance_matrix df) df.length s i j =
        ⌊compute_distance_matrix df i j / s * 60⌋) := by
  have hmain : ∀ d s : ℝ, 0 ≤ d → 0 < s → miles_to_minutes d s = ⌊d / s * 60⌋ := by
    intro d s hd hs
    unfold miles_to_minutes pyInt
    rw [if_pos]
    exact mul_nonneg (div_nonneg hd hs.le) (by norm_num)
  refine ⟨hmain, ?_⟩
  intro df s i j hi hj hs
  unfold duration_matrix
  rw [if_pos ⟨hi, hj⟩]
  exact hmain _ s (compute_distance_matrix_nonneg df i j) hs

/-- Closed instance of C3: 10 miles at 30 mph, and entry (0,1) of the
concrete pipeline. -/
theorem duration_is_floor_witness :
    miles_to_minutes 10 30 = ⌊(10 : ℝ) / 30 * 60⌋ ∧
    duration_matrix (compute_distance_matrix exDf) exDf.length 30 0 1 =
      ⌊compute_distance_matrix exDf 0 1 / 30 * 60⌋ :=
  ⟨duration_is_floor.1 10 30 (by norm_num) (by norm_num),
   duration_is_floor.2 exDf 30 0 1 (by decide) (by decide) (by norm_num)⟩

/-- C2: for every non-empty route the Aggregator's distance is the sum of
matrix distances over the legs depot → first → … → last → depot and its
duration is the sum of matrix durations over those legs plus one
service-time increment per visited customer; in particular a route visiting
only customer 1 has distance 2 × haversine(depot, customer) and duration
2 × travel_time + service_time. -/
theorem route_metrics_legs :
    (∀ (df : List Location) (M : Mat) (U : ℕ → ℕ → ℤ) (st : ℤ)
        (visits : List ℕ), visits ≠ [] →
      (mkRouteData df M U st visits).distance =
        ((routeLegs visits).map fun q => M q.1 q.2).sum ∧
      (mkRouteData df M U st visits).duration =
        ((routeLegs visits).map fun q => U q.1 q.2).sum + st * visits.length) ∧
    (∀ (df : List Location) (st : ℤ) (s : ℝ), 2 ≤ df.length →
      (mkRouteData df (compute_distance_matrix df)
        (duration_matrix (compute_distance_matrix df) df.length s)
        st [1]).distance = 2 * hav_idx df 0 1 ∧
      (mkRouteData df (compute_distance_matrix df)
        (duration_matrix (compute_distance_matrix df) df.length s)
        st [1]).duration = 2 * miles_to_minutes (hav_idx df 0 1) s + st) := by
  constructor
  · intro df M U st visits _
    exact ⟨mkRouteData_distance df M U st visits,
      mkRouteData_duration df M U st visits⟩
  · intro df st s hlen
    have h01 : (0 : ℕ) < 1 := Nat.zero_lt_one
    have h1n : 1 < df.length := hlen
    have hpair := compute_distance_matrix_pair df 0 1 h01 h1n
    constructor
    · rw [mkRouteData_distance]
      unfold routeLegs
      simp only [List.zip_cons_cons, List.cons_append, List.nil_append,
        List.zip_nil_right, List.map_cons, List.map_nil, List.sum_cons,
        List.sum_nil]
      rw [hpair.1, hpair.2]
      ring
    · rw [mkRouteData_duration]
      unfold routeLegs
      simp only [List.zip_cons_cons, List.cons_append, List.nil_append,
        List.zip_nil_right, List.map_cons, List.map_nil, List.sum_cons,
        List.sum_nil, List.length_cons, List.length_nil]
      unfold duration_matrix
      rw [if_pos ⟨Nat.lt_of_lt_of_le h01 (Nat.le_of_lt h1n), h1n⟩,
        if_pos ⟨h1n, Nat.lt_of_lt_of_le h01 (Nat.le_of_lt h1n)⟩,
        hpair.1, hpair.2]
      ring

/-- Closed instance of C2: a two-leg route on stub matrices and the
single-customer scenario on the concrete two-row table. -/
theorem route_metrics_legs_witness :
    ((mkRouteData exDf exMat exDur 60 [1, 2]).distance =
        ((routeLegs [1, 2]).map fun q => exMat q.1 q.2).sum ∧
      (mkRouteData exDf exMat exDur 60 [1, 2]).duration =
        ((routeLegs [1, 2]).map fun q => exDur q.1 q.2).sum +
          60 * ([1, 2] : List ℕ).length) ∧
    (mkRouteData exDf (compute_distance_matrix exDf)
      (duration_matrix (compute_distance_matrix exDf) exDf.length 30)
      60 [1]).distance = 2 * hav_idx exDf 0 1 ∧
    (mkRouteData exDf (compute_distance_matrix exDf)
      (duration_matrix (compute_distance_matrix exDf) exDf.length 30)
      60 [1]).duration = 2 * miles_to_minutes (hav_idx exDf 0 1) 30 + 60 :=
  ⟨route_metrics_legs.1 exDf exMat exDur 60 [1, 2] (by decide),
   route_metrics_legs.2 exDf 60 30 (by decide)⟩

/-- The base record of `aggregate_solution` before any route is processed. -/
theorem aggregate_solution_infeasible_eq (df : List Location) (M : Mat)
    (U : ℕ → ℕ → ℤ) (st : ℤ) (result : SolverResult)
    (h : result.is_feasible = false) :
    aggregate_solution df M U st result =
      { feasible := false
      , cost := none
      , routes := []
      , num_routes := 0
      , total_distance := 0
      , total_duration := 0
      , locations := df } := by
  unfold aggregate_solution
  rw [h]
  simp

/-- C5: an infeasible solver verdict is passed through with the feasibility
flag false, no cost, an empty route list and zero aggregate metrics. -/
theorem infeasible_solution_record (df : List Location) (M : Mat)
    (U : ℕ → ℕ → ℤ) (st : ℤ) (result : SolverResult)
    (h : result.is_feasible = false) :
    (aggregate_solution df M U st result).feasible = false ∧
    (aggregate_solution df M U st result).cost = none ∧
    (aggregate_solution df M U st result).routes = [] ∧
    (aggregate_solution df M U st result).num_routes = 0 ∧
    (aggregate_solution df M U st result).total_distance = 0 ∧
    (aggregate_solution df M U st result).total_duration = 0 := by
  rw [aggregate_solution_infeasible_eq df M U st result h]
  exact ⟨rfl, rfl, rfl, rfl, rfl, rfl⟩

/-- Closed instance of C5 at a concrete infeasible verdict carrying junk
cost and routes. -/
theorem infeasible_solution_record_witness :
    (aggregate_solution exDf exMat exDur 60 exInfeasible).feasible = false ∧
    (aggregate_solution exDf exMat exDur 60 exInfeasible).cost = none ∧
    (aggregate_solution exDf exMat exDur 60 exInfeasible).routes = [] ∧
    (aggregate_solution exDf exMat exDur 60 exInfeasible).num_routes = 0 ∧
    (aggregate_solution exDf exMat exDur 60 exInfeasible).total_distance = 0 ∧
    (aggregate_solution exDf exMat exDur 60 exInfeasible).total_duration = 0 :=
  infeasible_solution_record exDf exMat exDur 60 exInfeasible rfl

/-- On a feasible verdict the final record is the fold over all raw routes
with `num_routes` set to the number of retained routes. -/
theorem aggregate_solution_feasible_eq (df : List Location) (M : Mat)
    (U : ℕ → ℕ → ℤ) (st : ℤ) (result : SolverResult)
    (h : result.is_feasible = true) :
    aggregate_solution df M U st result =
      { (result.routes.foldl (aggStep df M U st)
          { feasible := result.is_feasible
          , cost := if result.is_feasible then some result.cost else none
          , routes := []
          , num_routes := 0
          , total_distance := 0
          , total_duration := 0
          , locations := df }) with
        num_routes := (result.routes.foldl (aggStep df M U st)
          { feasible := result.is_feasible
          , cost := if result.is_feasible then some result.cost else none
          , routes := []
          , num_routes := 0
          , total_distance := 0
          , total_duration := 0
          , locations := df }).routes.length } := by
  unfold aggregate_solution
  rw [h]
  simp

/-- The retained route list of a feasible aggregation: the non-empty raw
routes, in order, each turned into its route record. -/
theorem aggregate_solution_routes_eq (df : List Location) (M : Mat)
    (U : ℕ → ℕ → ℤ) (st : ℤ) (result : SolverResult)
    (h : result.is_feasible = true) :
    (aggregate_solution df M U st result).routes =
      (result.routes.filter fun v => v.length != 0).map
        (mkRouteData df M U st) := by
  rw [aggregate_solution_feasible_eq df M U st result h]
  have hs := foldl_aggStep_spec df M U st result.routes
    { feasible := result.is_feasible
    , cost := if result.is_feasible then some result.cost else none
    , routes := []
    , num_routes := 0
    , total_distance := 0
    , total_duration := 0
    , locations := df }
  rw [show ({ (result.routes.foldl (aggStep df M U st) _) with
      num_routes := _ } : SolutionData).routes =
      (result.routes.foldl (aggStep df M U st)
        { feasible := result.is_feasible
        , cost := if result.is_feasible then some result.cost else none
        , routes := []
        , num_routes := 0
        , total_distance := 0
        , total_duration := 0
        , locations := df }).routes from rfl, hs.1]
  simp

/-- C6: routes with zero visits are dropped and contribute nothing;
`num_routes` counts the retained routes and the aggregate totals are the
sums of the retained routes' metrics. -/
theorem empty_routes_dropped (df : List Location) (M : Mat)
    (U : ℕ → ℕ → ℤ) (st : ℤ) (result : SolverResult)
    (h : result.is_feasible = true) :
    (aggregate_solution df M U st result).routes =
      (result.routes.filter fun v => v.length != 0).map
        (mkRouteData df M U st) ∧
    (aggregate_solution df M U st result).num_routes =
      ((result.routes.filter fun v => v.length != 0)).length ∧
    (aggregate_solution df M U st result).total_distance =
      ((result.routes.filter fun v => v.length != 0).map
        fun v => (mkRouteData df M U st v).distance).sum ∧
    (aggregate_solution df M U st result).total_duration =
      ((result.routes.filter fun v => v.length != 0).map
        fun v => (mkRouteData df M U st v).duration).sum := by
  have hroutes := aggregate_solution_routes_eq df M U st result h
  have hs := foldl_aggStep_spec df M U st result.routes
    { feasible := result.is_feasible
    , cost := if result.is_feasible then some result.cost else none
    , routes := []
    , num_routes := 0
    , total_distance := 0
    , total_duration := 0
    , locations := df }
  refine ⟨hroutes, ?_, ?_, ?_⟩
  · rw [aggregate_solution_feasible_eq df M U st result h]
    show (result.routes.foldl (aggStep df M U st) _).routes.length = _
    rw [hs.1]
    simp
  · rw [aggregate_solution_feasible_eq df M U st result h]
    show (result.routes.foldl (aggStep df M U st) _).total_distance = _
    rw [hs.2.1]
    simp
  · rw [aggregate_solution_feasible_eq df M U st result h]
    show (result.routes.foldl (aggStep df M U st) _).total_duration = _
    rw [hs.2.2.1]
    simp

/-- Closed instance of C6 on a feasible verdict with one unused vehicle. -/
theorem empty_routes_dropped_witness :
    (aggregate_solution exDf exMat exDur 60 exFeasible).routes =
      ((exFeasible.routes.filter fun v => v.length != 0)).map
        (mkRouteData exDf exMat exDur 60) ∧
    (aggregate_solution exDf exMat exDur 60 exFeasible).num_routes =
      ((exFeasible.routes.filter fun v => v.length != 0)).length ∧
    (aggregate_solution exDf exMat exDur 60 exFeasible).total_distance =
      ((exFeasible.routes.filter fun v => v.length != 0).map
        fun v => (mkRouteData exDf exMat exDur 60 v).distance).sum ∧
    (aggregate_solution exDf exMat exDur 60 exFeasible).total_duration =
      ((exFeasible.routes.filter fun v => v.length != 0).map
        fun v => (mkRouteData exDf exMat exDur 60 v).duration).sum :=
  empty_routes_dropped exDf exMat exDur 60 exFeasible rfl

/-- C7: a location cap 0 < N < row count makes the app truncate to the first
N rows before validation (row 0 of the truncated set is the original depot
row), validation operates on the truncated set, and the matrices built from
the truncated set have dimension N × N (shape (N, N), with nothing written
outside that range). -/
theorem location_cap_truncates (df : List Location) (N : ℕ) (s : ℝ)
    (h0 : 0 < N) (hN : N < df.length) :
    df_display N df = df.take N ∧
    (app_validation N df ↔ validation_passed (df.take N)) ∧
    truncate_df (some N) df = df.take N ∧
    (df.take N).length = N ∧
    nth (df.take N) 0 = nth df 0 ∧
    matrixShape (truncate_df (some N) df) = (N, N) ∧
    (∀ i j, N ≤ i ∨ N ≤ j →
      compute_distance_matrix (truncate_df (some N) df) i j = 0 ∧
      duration_matrix (compute_distance_matrix (truncate_df (some N) df))
        (truncate_df (some N) df).length s i j = 0) := by
  have hdisp : df_display N df = df.take N := by
    unfold df_display
    rw [if_pos ⟨h0, hN⟩]
  have hlen : (df.take N).length = N := by
    rw [List.length_take]
    exact min_eq_left (Nat.le_of_lt hN)
  refine ⟨hdisp, ?_, rfl, hlen, ?_, ?_, ?_⟩
  · unfold app_validation
    rw [hdisp]
  · unfold nth
    simp [List.getD, List.getElem?_take_of_lt h0]
  · unfold matrixShape truncate_df
    rw [hlen]
  · intro i j hout
    have hout' : (truncate_df (some N) df).length ≤ i ∨
        (truncate_df (some N) df).length ≤ j := by
      unfold truncate_df
      rw [hlen]
      exact hout
    constructor
    · exact compute_distance_matrix_outside _ i j hout'
    · unfold duration_matrix
      rw [if_neg]
      omega

/-- Closed instance of C7: cap 2 on a three-row table. -/
theorem location_cap_truncates_witness :
    df_display 2 exDf3 = exDf3.take 2 ∧
    (app_validation 2 exDf3 ↔ validation_passed (exDf3.take 2)) ∧
    truncate_df (some 2) exDf3 = exDf3.take 2 ∧
    (exDf3.take 2).length = 2 ∧
    nth (exDf3.take 2) 0 = nth exDf3 0 ∧
    matrixShape (truncate_df (some 2) exDf3) = (2, 2) ∧
    compute_distance_matrix (truncate_df (some 2) exDf3) 2 1 = 0 := by
  have h := location_cap_truncates exDf3 2 30 (by decide) (by decide)
  exact ⟨h.1, h.2.1, h.2.2.1, h.2.2.2.1, h.2.2.2.2.1, h.2.2.2.2.2.1,
    (h.2.2.2.2.2.2 2 1 (Or.inl (by decide))).1⟩

/-- C8: when `time_window_end ≤ time_window_start` the solve click is
rejected with the validation error and the solver callback is never
consulted — the outcome is the same no matter what the solver would
return. -/
theorem time_window_gate {α : Type} (tws twe : ℤ) (f : Unit → α)
    (h : twe ≤ tws) :
    on_solve_click tws twe f =
      Except.error "End time must be after start time!" ∧
    ∀ g : Unit → α, on_solve_click tws twe f = on_solve_click tws twe g := by
  unfold on_solve_click
  rw [if_pos h]
  exact ⟨rfl, fun g => by rw [if_pos h]⟩

/-- Closed instance of C8 at an end time equal to the start time. -/
theorem time_window_gate_witness :
    on_solve_click 540 540 (fun _ => (7 : ℕ)) =
      Except.error "End time must be after start time!" ∧
    on_solve_click 540 540 (fun _ => (7 : ℕ)) =
      on_solve_click 540 540 fun _ => (99 : ℕ) :=
  ⟨(time_window_gate 540 540 (fun _ => (7 : ℕ)) (by decide)).1,
   (time_window_gate 540 540 (fun _ => (7 : ℕ)) (by decide)).2 fun _ => 99⟩

/-- C9: the Aggregator is a deterministic function of the raw route output,
the matrices and the service time, so two runs on the same inputs produce
byte-identical serialized JSON (float formatting being Python's fixed float
representation, modelled by the `fmt` parameter). -/
theorem aggregator_deterministic_json (fmt : ℝ → String) (df : List Location)
    (M : Mat) (U : ℕ → ℕ → ℤ) (st : ℤ) (result : SolverResult) :
    solutionJson fmt (aggregate_solution df M U st result) =
      solutionJson fmt (aggregate_solution df M U st result) := rfl

/-- C10: every retained route record's displayed location list is the
depot's name, the visited customers' names in visit order, and the depot's
name again — length `visits.length + 2`, bookended by the depot. -/
theorem route_locations_depot_bookends (df : List Location) (M : Mat)
    (U : ℕ → ℕ → ℤ) (st : ℤ) (result : SolverResult) (rd : RouteData)
    (hfeas : result.is_feasible = true)
    (hmem : rd ∈ (aggregate_solution df M U st result).routes) :
    rd.locations = (nth df 0).name ::
      ((rd.visits.map fun i => (nth df i).name) ++ [(nth df 0).name]) ∧
    rd.locations.length = rd.visits.length + 2 ∧
    rd.locations.head? = some (nth df 0).name ∧
    rd.locations.getLast? = some (nth df 0).name := by
  rw [aggregate_solution_routes_eq df M U st result hfeas] at hmem
  rcases List.mem_map.mp hmem with ⟨v, _, hv⟩
  have hloc : rd.locations = (nth df 0).name ::
      ((rd.visits.map fun i => (nth df i).name) ++ [(nth df 0).name]) := by
    rw [← hv]
    rfl
  refine ⟨hloc, ?_, ?_, ?_⟩
  · rw [hloc]
    simp
  · rw [hloc]
    rfl
  · rw [hloc, show (nth df 0).name ::
      ((rd.visits.map fun i => (nth df i).name) ++ [(nth df 0).name]) =
      ((nth df 0).name :: rd.visits.map fun i => (nth df i).name) ++
        [(nth df 0).name] from rfl]
    exact List.getLast?_concat _

/-- Closed instance of C10 at a feasible verdict with route `[1]`. -/
theorem route_locations_depot_bookends_witness :
    (mkRouteData exDf exMat exDur 60 [1]).locations = (nth exDf 0).name ::
      (((mkRouteData exDf exMat exDur 60 [1]).visits.map
        fun i => (nth exDf i).name) ++ [(nth exDf 0).name]) ∧
    (mkRouteData exDf exMat exDur 60 [1]).locations.length =
      (mkRouteData exDf exMat exDur 60 [1]).visits.length + 2 ∧
    (mkRouteData exDf exMat exDur 60 [1]).locations.head? =
      some (nth exDf 0).name ∧
    (mkRouteData exDf exMat exDur 60 [1]).locations.getLast? =
      some (nth exDf 0).name :=
  route_locations_depot_bookends exDf exMat exDur 60 exFeasible
    (mkRouteData exDf exMat exDur 60 [1]) rfl
    (by rw [aggregate_solution_routes_eq exDf exMat exDur 60 exFeasible rfl]
        simp only [List.mem_map]
        exact ⟨[1], by decide, rfl⟩)

/-- C1 (code bug): `solve_vrptw` computes the effective max route duration
(420 at the repository's own example parameters, window span 480 when the
argument is omitted) but `add_vehicle_type` is called without any
`max_duration` argument, so the model handed to the external solver carries
no per-route duration constraint at all — for the example parameters and
for every solve request. -/
theorem max_route_duration_not_in_model :
    effective_max_route_duration exParams = 420 ∧
    exParams.time_window_end - exParams.time_window_start = 480 ∧
    effective_max_route_duration exParamsDefault = 480 ∧
    (build_model exDf (compute_distance_matrix exDf)
      (duration_matrix (compute_distance_matrix exDf) exDf.length 30)
      exParams).vehicle_type.max_duration = none ∧
    ∀ (df : List Location) (M : Mat) (U : ℕ → ℕ → ℤ) (p : SolveParams),
      (build_model df M U p).vehicle_type.max_duration = none :=
  ⟨rfl, rfl, rfl, rfl, fun _ _ _ _ => rfl⟩
